import Mathlib

/-!
Verification development for the Agentic Deep Research tool.

We shallowly embed the pure, decision-making parts of the pipeline:

* `src/agents/search_data_collection_agent.py`:
  `process_query_with_retry` / `parallel_search` (retrieval coordinator) and
  the per-result content update inside `web_search`.
* `src/agents/orchestration_agent.py`: `generate_report` and
  `validate_report`.
* `src/agents/query_analysis_agent.py`: `validate_subtasks`.
* `src/main.py`: the findings-aggregation loop of `research_pipeline`.

External LLM / network calls are modelled as oracle parameters of type
`Except String _`: `Except.error e` models the Python call raising an
exception whose `str()` is `e`, and `Except.ok v` models a normal return.
Python strings are Lean `String` (both count code points for `len`),
Python floats carrying relevance scores are `Rat`, Python dicts
(insertion-ordered) are association lists.  The pydantic field validation
run by the `ResearchReport(...)` constructor inside `generate_report` is
modelled by `reportConstruction`; a `ValidationError` propagating out of
`generate_report` is modelled by an `Option.none` result.  Plain
attribute assignment (as in `validate_report`) does not trigger pydantic
v1 validation and stays a plain record update.
-/

/-- Python `pre in s` membership test on strings (substring containment). -/
def pyIn (pat s : String) : Bool :=
  decide (pat.data <:+: s.data)

/-- Python `s.startswith(pre)`. -/
def pyStartsWith (s pre : String) : Bool :=
  pre.data.isPrefixOf s.data

/-- Python `s[:n]` (slice of the first `n` code points). -/
def pyTake (s : String) (n : Nat) : String :=
  String.mk (s.data.take n)

/-- Constant from `src/constants.py`. -/
def MIN_SUBTASKS : Nat := 3

/-- Constant from `src/constants.py`. -/
def MAX_SUBTASKS : Nat := 5

/-- Constant from `src/constants.py`. -/
def MIN_REPORT_WORDS : Nat := 1000

/-- `ResearchDataPoint` from `src/schemas/research_report.py`. -/
structure ResearchDataPoint where
  source : String
  content : String
  summary : String
  relevance_score : Rat
deriving DecidableEq, Repr

/-- `ResearchSubtask` from `src/schemas/research_report.py`. -/
structure ResearchSubtask where
  objective : String
  search_terms : List String
  priority : Int
deriving DecidableEq, Repr

/-- `ResearchReport` from `src/schemas/research_report.py`; the `findings`
dict is an insertion-ordered association list. -/
structure ResearchReport where
  topic : String
  findings : List (String × List ResearchDataPoint)
  synthesis : String
  sources : List String
deriving DecidableEq, Repr

/-- The placeholder `ResearchDataPoint` substituted by
`process_query_with_retry` when the agent returns zero data points
(`src/agents/search_data_collection_agent.py`, lines 283-289). -/
def noResultPlaceholder (query : String) : ResearchDataPoint :=
  { source := "https://example.com/search?q=" ++ query
    content := "No valid results for \x27" ++ query ++ "\x27"
    summary := "No information available for \x27" ++ query ++ "\x27"
    relevance_score := 1/10 }

/-- The placeholder `ResearchDataPoint` substituted by
`process_query_with_retry` on a non-429 error or when retries are
exhausted (`src/agents/search_data_collection_agent.py`, lines 305-311). -/
def errorPlaceholder (query : String) : ResearchDataPoint :=
  { source := "https://example.com/error?q=" ++ query
    content := "Error during search for \x27" ++ query ++ "\x27"
    summary := "Search error for \x27" ++ query ++ "\x27"
    relevance_score := 1/10 }

/-- The retry loop `for attempt in range(max_retries + 1)` of
`process_query_with_retry` (`src/agents/search_data_collection_agent.py`,
lines 243-311), started at attempt index `attempt`.

`run i` is the outcome of `search_agent.run` on attempt `i` (the
`data_points` list on success, the raised exception text on error);
`jitter i` is the value drawn by `random.uniform(1, 5)` on attempt `i`.

The first component of the result records the exponential-backoff sleeps
performed in the 429-retry branch, `min(30, 2 ** attempt + jitter)` each;
the pacing sleeps at the top of the loop body affect timing only and are
not recorded.  The second component is the returned data-point list. -/
def retryLoop (run : Nat → Except String (List ResearchDataPoint))
    (jitter : Nat → Rat) (query : String) (maxRetries attempt : Nat) :
    List Rat × List ResearchDataPoint :=
  match run attempt with
  | Except.ok dps =>
      if dps = [] then ([], [noResultPlaceholder query]) else ([], dps)
  | Except.error e =>
      if pyIn "429" e then
        if h : attempt < maxRetries then
          let wait := min 30 ((2 : Rat) ^ attempt + jitter attempt)
          let rest := retryLoop run jitter query maxRetries (attempt + 1)
          (wait :: rest.1, rest.2)
        else ([], [errorPlaceholder query])
      else ([], [errorPlaceholder query])
termination_by maxRetries - attempt
decreasing_by omega

/-- `process_query_with_retry(query, max_retries=5)` from
`src/agents/search_data_collection_agent.py` (lines 241-311): the retry
loop started at attempt 0. -/
def process_query_with_retry (run : Nat → Except String (List ResearchDataPoint))
    (jitter : Nat → Rat) (query : String) (maxRetries : Nat := 5) :
    List Rat × List ResearchDataPoint :=
  retryLoop run jitter query maxRetries 0

/-- `parallel_search(ctx, queries)` from
`src/agents/search_data_collection_agent.py` (lines 237-320): queries are
processed strictly sequentially and each per-query result is appended to
`all_results`.  `runs q i` is the outcome of `search_agent.run` for query
`q` on attempt `i`. -/
def parallel_search (runs : String → Nat → Except String (List ResearchDataPoint))
    (jitter : String → Nat → Rat) (queries : List String) :
    List (List ResearchDataPoint) :=
  queries.map (fun q => (process_query_with_retry (runs q) (jitter q) q 5).2)

/-- Source accumulation in `generate_report`
(`src/agents/orchestration_agent.py`, lines 43-46): a data point source is
appended to the running `sources` list when it is truthy (non-empty), does
not start with `@`, and is not already present. -/
def addSource (sources : List String) (src : String) : List String :=
  if src ≠ "" ∧ pyStartsWith src "@" = false ∧ src ∉ sources then
    sources ++ [src]
  else sources

/-- The `combined_content` accumulation of `generate_report`
(`src/agents/orchestration_agent.py`, lines 48-51): contents of the data
points, each followed by a blank line, skipping falsy (empty) contents. -/
def combinedContent (data_points : List ResearchDataPoint) : String :=
  data_points.foldl
    (fun c dp => if dp.content ≠ "" then c ++ dp.content ++ "\n\n" else c) ""

/-- Truncation of over-long combined content before the summarizer call
(`src/agents/orchestration_agent.py`, lines 69-72). -/
def truncateCombined (c : String) : String :=
  if c.length > 10000 then
    pyTake c 10000 ++ "\n[Content truncated for length]\n"
  else c

/-- One iteration of the per-objective loop of `generate_report`
(`src/agents/orchestration_agent.py`, lines 28-81), threading the
`(subtask_content, sources)` accumulator.  `summarize objective text` is
the oracle outcome of `summarizer.run` on the (possibly truncated)
combined content. -/
def generateReportStep (summarize : String → String → Except String String)
    (acc : List (String × String) × List String)
    (entry : String × List ResearchDataPoint) :
    List (String × String) × List String :=
  if entry.2 = [] then
    (acc.1 ++ [(entry.1, "No data found for this objective.")], acc.2)
  else
    let sources2 := entry.2.foldl (fun s dp => addSource s dp.source) acc.2
    let section_content :=
      match summarize entry.1 (truncateCombined (combinedContent entry.2)) with
      | Except.ok s => s
      | Except.error e => "Error processing content: " ++ e
    (acc.1 ++ [(entry.1, section_content)], sources2)

/-- The numbered source list appended after the composed report or the
minimal error report (`src/agents/orchestration_agent.py`, lines 139-141
and 154-155): one line per source, `f"\x7bi+1\x7d. \x7bsource\x7d\n"`. -/
def numberedSources (sources : List String) : String :=
  (sources.enum.foldl
    (fun acc p => acc ++ toString (p.1 + 1) ++ ". " ++ p.2 ++ "\n") "")

/-- A `ResearchReport(...)` constructor call with its pydantic field
validation (`src/schemas/research_report.py`, lines 53-82): `synthesis`
carries `min_length=100` and `sources` carries `min_items=1`; `topic` and
`findings` have no constraints there (the findings values are
already-constructed `ResearchDataPoint` instances, which pydantic v1
accepts without re-validation).  `none` models the constructor raising a
`ValidationError`. -/
def reportConstruction (topic : String)
    (findings : List (String × List ResearchDataPoint))
    (synthesis : String) (sources : List String) : Option ResearchReport :=
  if synthesis.length < 100 ∨ sources.length < 1 then none
  else some { topic := topic, findings := findings,
              synthesis := synthesis, sources := sources }

/-- The post-composition references repair of `generate_report`
(`src/agents/orchestration_agent.py`, lines 137-142): when neither
"References" nor "REFERENCES" occurs in the composed text, append a
numbered "## References" section over the valid sources. -/
def composedWithReferences (final_report : String)
    (valid_sources : List String) : String :=
  if pyIn "References" final_report = false ∧
      pyIn "REFERENCES" final_report = false then
    final_report ++ "\n\n## References\n\n" ++ numberedSources valid_sources
  else final_report

/-- The outer `except` branch of `generate_report`
(`src/agents/orchestration_agent.py`, lines 151-164): build the minimal
error report from the caught exception text `e` and construct it —
itself subject to the pydantic validation, so a short `e` with no valid
sources makes this construction raise in turn (`none`), propagating out
of `generate_report`. -/
def generateReportExceptPath
    (research_data : List (String × List ResearchDataPoint))
    (original_query : String) (valid_sources : List String) (e : String) :
    Option ResearchReport :=
  reportConstruction original_query research_data
    ("Error generating report: " ++ e ++ "\n\n## References\n\n" ++
      numberedSources valid_sources)
    (if valid_sources = [] then ["Error collecting sources"]
     else valid_sources)

/-- `generate_report(ctx, research_data, original_query)` from
`src/agents/orchestration_agent.py` (lines 19-165).

`summarize` is the per-objective `summarizer.run` oracle (exceptions are
caught by the inner `try`), `compose` the outcome of `report_agent.run`
on the report prompt: `Except.error e` models that call raising `e`.
`vmsg` is the `str()` of the pydantic `ValidationError` raised when the
composed report fails the schema constraints (the text is produced by
pydantic, not by this repository).  Both that error and a raising
`compose` are caught by the outer `except`, which builds the minimal
error report; if that construction fails validation too, the exception
propagates, modelled by `none`.  The construction of the prompt strings
themselves is not modelled (they only feed the oracles). -/
def generate_report (summarize : String → String → Except String String)
    (compose : Except String String) (vmsg : String)
    (research_data : List (String × List ResearchDataPoint))
    (original_query : String) : Option ResearchReport :=
  let pair := research_data.foldl (generateReportStep summarize) ([], [])
  let sources := pair.2
  let valid_sources := sources.filter (fun src => pyStartsWith src "@" = false)
  match compose with
  | Except.ok final_report =>
      match reportConstruction original_query research_data
          (composedWithReferences final_report valid_sources)
          (if valid_sources = [] then ["No valid sources found"]
           else valid_sources) with
      | some r => some r
      | none =>
          generateReportExceptPath research_data original_query
            valid_sources vmsg
  | Except.error e =>
      generateReportExceptPath research_data original_query valid_sources e

/-- The content preview used in the minimal skeleton of `validate_report`
(`src/agents/orchestration_agent.py`, lines 197-199): first 300 code
points, ellipsis-suffixed when truncated. -/
def contentPreview (content : String) : String :=
  if content.length > 300 then pyTake content 300 ++ "..." else content

/-- One `### Information from ...` block of the minimal skeleton
(`src/agents/orchestration_agent.py`, lines 192-200). -/
def dataPointBlock (dp : ResearchDataPoint) : String :=
  "### Information from " ++ dp.source ++ "\n\n" ++
    (if dp.content ≠ "" then contentPreview dp.content ++ "\n\n" else "")

/-- One per-objective section of the minimal skeleton
(`src/agents/orchestration_agent.py`, lines 184-200). -/
def objectiveSection (objective : String)
    (data_points : List ResearchDataPoint) : String :=
  "## " ++ objective ++ "\n\n" ++
    (if data_points = [] then "No data found for this objective.\n\n"
     else data_points.foldl (fun acc dp => acc ++ dataPointBlock dp) "")

/-- The trailing references section of the minimal skeleton
(`src/agents/orchestration_agent.py`, lines 202-206): every data point
source across all objectives, unfiltered. -/
def skeletonReferences (findings : List (String × List ResearchDataPoint)) :
    String :=
  "## References\n\n" ++
    findings.foldl
      (fun acc p =>
        p.2.foldl (fun a dp => a ++ "- " ++ dp.source ++ "\n") acc) ""

/-- The full `minimal_synthesis` skeleton built by `validate_report`
(`src/agents/orchestration_agent.py`, lines 181-206). -/
def minimalSynthesis (report : ResearchReport) : String :=
  "# Research Report: " ++ report.topic ++ "\n\n" ++
    report.findings.foldl (fun acc p => acc ++ objectiveSection p.1 p.2) "" ++
    skeletonReferences report.findings

/-- Total number of data points across all objectives,
`sum(len(points) for points in report.findings.values())`
(`src/agents/orchestration_agent.py`, line 177). -/
def totalDataPoints (findings : List (String × List ResearchDataPoint)) :
    Nat :=
  (findings.map (fun p => p.2.length)).sum

/-- `validate_report(ctx, report)` from `src/agents/orchestration_agent.py`
(lines 166-221).  The skeleton regeneration is pure (no agent call), so no
oracle is needed; the broad `except` handlers return the report unchanged
and are unreachable in the embedding. -/
def validate_report (report : ResearchReport) : ResearchReport :=
  if report.synthesis = "" ∨
      report.synthesis.length < MIN_REPORT_WORDS * 2 then
    if report.findings ≠ [] ∧ totalDataPoints report.findings > 0 then
      { report with synthesis := minimalSynthesis report }
    else report
  else report

/-- `validate_subtasks(ctx, subtasks)` from
`src/agents/query_analysis_agent.py` (lines 58-75): substitute the
objective for an empty search-term list, renumber priorities `1..N` in
list order, then stable-sort by priority. -/
def validate_subtasks (subtasks : List ResearchSubtask) :
    List ResearchSubtask :=
  let fixed := subtasks.enum.map
    (fun p =>
      { p.2 with
        search_terms :=
          if p.2.search_terms = [] then [p.2.objective] else p.2.search_terms
        priority := (p.1 : Int) + 1 })
  fixed.mergeSort (fun a b => a.priority ≤ b.priority)

/-- The findings-aggregation loop of `research_pipeline`
(`src/main.py`, lines 139-151): for each subtask, concatenate the per-term
result lists of the terms containing the objective as a substring; when
that collection is falsy (empty) fall back to the list at the subtask's
own index, when it exists. -/
def aggregateFindings (subtasks : List ResearchSubtask)
    (search_terms : List String)
    (all_findings_lists : List (List ResearchDataPoint)) :
    List (String × List ResearchDataPoint) :=
  subtasks.enum.map (fun p =>
    let task_findings := search_terms.enum.foldl
      (fun acc q =>
        if q.1 < all_findings_lists.length ∧ pyIn p.2.objective q.2 then
          acc ++ all_findings_lists.getD q.1 []
        else acc) []
    let task_findings2 :=
      if task_findings = [] ∧ p.1 < all_findings_lists.length then
        all_findings_lists.getD p.1 []
      else task_findings
    (p.2.objective, task_findings2))

/-- The per-result content update inside `web_search`
(`src/agents/search_data_collection_agent.py`, lines 114-131): `fetched`
is the oracle outcome of `fetch_webpage_content` (`Except.error` models
the call raising).  A truthy fetched text strictly longer than the
snippet replaces the snippet; otherwise, and on a fetch exception, the
snippet is kept. -/
def fetchAndUpdateContent (snippet : String)
    (fetched : Except String String) : String :=
  match fetched with
  | Except.error _ => snippet
  | Except.ok full_content =>
      if full_content ≠ "" ∧ full_content.length > snippet.length then
        full_content
      else snippet

/-- All data point sources of a findings map, flattened in iteration
order (per objective, per data point). -/
def allSources (research_data : List (String × List ResearchDataPoint)) :
    List String :=
  ((research_data.map Prod.snd).flatten).map ResearchDataPoint.source

/-- First-seen-order deduplication of a list, keeping the first
occurrence of each element. -/
def dedupFirstSeen (l : List String) : List String :=
  l.foldl (fun acc s => if s ∉ acc then acc ++ [s] else acc) []

/-- The valid-source list as the code computes it, stated flatly: all
data point sources in first-seen order, deduplicated, excluding empty
sources and sources starting with `@`. -/
def specValidSources (research_data : List (String × List ResearchDataPoint)) :
    List String :=
  dedupFirstSeen ((allSources research_data).filter
    (fun s => s ≠ "" ∧ pyStartsWith s "@" = false))

/-- The sources list exactly as claim C2 words it: sources in first-seen
order, deduplicated, excluding only the sources that start with `@`
(empty sources are not excluded). -/
def claimedSourcesC2 (research_data : List (String × List ResearchDataPoint)) :
    List String :=
  dedupFirstSeen ((allSources research_data).filter
    (fun s => pyStartsWith s "@" = false))

/-- The case-insensitive containment check exactly as claim C3 words it:
whether the composed text contains the substring `references`
case-insensitively. -/
def claimedHasReferencesC3 (text : String) : Bool :=
  pyIn "references" (String.mk (text.data.map Char.toLower))

/-- The findings aggregation exactly as claim C5 words it: the
concatenation over the matching terms, with the positional fallback taken
only when no term matches (rather than whenever the concatenation is
empty). -/
def claimedAggregateC5 (subtasks : List ResearchSubtask)
    (search_terms : List String)
    (all_findings_lists : List (List ResearchDataPoint)) :
    List (String × List ResearchDataPoint) :=
  subtasks.enum.map (fun p =>
    let matched := search_terms.enum.foldl
      (fun acc q =>
        if q.1 < all_findings_lists.length ∧ pyIn p.2.objective q.2 then
          acc ++ all_findings_lists.getD q.1 []
        else acc) []
    if search_terms.any (fun t => pyIn p.2.objective t) then
      (p.2.objective, matched)
    else if p.1 < all_findings_lists.length then
      (p.2.objective, all_findings_lists.getD p.1 [])
    else (p.2.objective, []))

/-- The matched concatenation of the findings aggregator, restated as the
join of the per-term result lists of the matching terms, in term order. -/
def matchedJoin (objective : String) (search_terms : List String)
    (all_findings_lists : List (List ResearchDataPoint)) :
    List ResearchDataPoint :=
  ((search_terms.enum.filter
      (fun q => q.1 < all_findings_lists.length ∧ pyIn objective q.2)).map
    (fun q => all_findings_lists.getD q.1 [])).flatten

/-- The findings aggregation as claim C5 must be amended: the positional
fallback triggers whenever the matched concatenation is empty — both when
no term matches and when every matching term produced an empty list. -/
def amendedAggregateC5 (subtasks : List ResearchSubtask)
    (search_terms : List String)
    (all_findings_lists : List (List ResearchDataPoint)) :
    List (String × List ResearchDataPoint) :=
  subtasks.enum.map (fun p =>
    let matched := matchedJoin p.2.objective search_terms all_findings_lists
    if matched = [] ∧ p.1 < all_findings_lists.length then
      (p.2.objective, all_findings_lists.getD p.1 [])
    else (p.2.objective, matched))

/-- Sample data point used by concrete witnesses. -/
def sampleDataPoint : ResearchDataPoint :=
  { source := "https://example.com/a"
    content := "content text"
    summary := "summary text"
    relevance_score := 1 }

/-- Witness oracle: every query and attempt succeeds with one data point. -/
def okRuns : String → Nat → Except String (List ResearchDataPoint) :=
  fun _ _ => Except.ok [sampleDataPoint]

/-- Witness oracle: every attempt raises a throttling (429) error. -/
def run429 : Nat → Except String (List ResearchDataPoint) :=
  fun _ => Except.error "Error code: 429 - rate limit reached"

/-- Witness jitter oracle, one query argument. -/
def zeroJitter2 : String → Nat → Rat := fun _ _ => 0

/-- Witness jitter oracle. -/
def zeroJitter : Nat → Rat := fun _ => 0

/-- Witness summarizer oracle: always returns fixed section text. -/
def okSummarize : String → String → Except String String :=
  fun _ _ => Except.ok "section text"

/-- Findings map with a single data point whose source is the empty
string, exercising the truthiness filter of the source accumulation. -/
def cexFindingsC2 : List (String × List ResearchDataPoint) :=
  [("objective one",
    [{ source := ""
       content := "c"
       summary := "summary text"
       relevance_score := 1 }])]

/-- Report passing the length invariant of `validate_report`. -/
def validReportFixture : ResearchReport :=
  { topic := "T"
    findings := [("objective one", [sampleDataPoint])]
    synthesis := String.mk (List.replicate 2000 'a')
    sources := ["https://example.com/a"] }

/-- Report violating the length invariant of `validate_report` while
holding at least one data point. -/
def shortReportFixture : ResearchReport :=
  { topic := "T"
    findings := [("objective one", [sampleDataPoint])]
    synthesis := "too short"
    sources := ["https://example.com/a"] }

/-- Subtask whose objective is a substring of a term that retrieved
nothing, while the positionally corresponding term retrieved data. -/
def cexSubtasksC5 : List ResearchSubtask :=
  [{ objective := "foo", search_terms := [], priority := 1 }]

/-- Search terms for the C5 counterexample. -/
def cexTermsC5 : List String := ["plain", "bar foo"]

/-- Per-term results for the C5 counterexample. -/
def cexListsC5 : List (List ResearchDataPoint) := [[sampleDataPoint], []]

/-- A single-subtask list, below the configured minimum count. -/
def cexSubtasksC8 : List ResearchSubtask :=
  [{ objective := "single objective", search_terms := ["term"], priority := 7 }]

/-- Findings map with one objective and one valid-source data point. -/
def findingsFixture : List (String × List ResearchDataPoint) :=
  [("objective one", [sampleDataPoint])]

/-- Representative text of the pydantic `ValidationError` raised when
the synthesis falls short of `min_length=100` (the wording is pydantic
library output, not code of this repository; only its length matters to
the pipeline). -/
def pydanticMsgFixture : String :=
  "1 validation error for ResearchReport synthesis ensure this value has at least 100 characters (type=value_error.any_str.min_length; limit_value=100)"

/-- A composed report text over 100 characters long containing the word
"references" only in lower case — present for the claimed
case-insensitive check, absent for the code's exact-case check. -/
def cexComposedC3 : String :=
  "this composed report text mentions its references only in lower case, and it is padded to exceed one hundred characters in total length."

/-- A composed report text over 100 characters long containing no
references marker of any casing. -/
def cexPlainC3 : String :=
  "this composed report text has no citation marker of any kind, and it is padded well past one hundred characters so the schema length check passes."

/-- Unfolding of `retryLoop` when the attempt succeeds. -/
theorem retryLoop_run_ok (run : Nat → Except String (List ResearchDataPoint))
    (jitter : Nat → Rat) (q : String) (m a : Nat) (dps : List ResearchDataPoint)
    (h : run a = Except.ok dps) :
    retryLoop run jitter q m a =
      if dps = [] then ([], [noResultPlaceholder q]) else ([], dps) := by
  rw [retryLoop.eq_def, h]

/-- Unfolding of `retryLoop` when the attempt raises. -/
theorem retryLoop_run_error (run : Nat → Except String (List ResearchDataPoint))
    (jitter : Nat → Rat) (q : String) (m a : Nat) (e : String)
    (h : run a = Except.error e) :
    retryLoop run jitter q m a =
      if pyIn "429" e then
        if a < m then
          ((min 30 ((2 : Rat) ^ a + jitter a)) ::
              (retryLoop run jitter q m (a + 1)).1,
            (retryLoop run jitter q m (a + 1)).2)
        else ([], [errorPlaceholder q])
      else ([], [errorPlaceholder q]) := by
  rw [retryLoop.eq_def, h]
  simp only [dite_eq_ite]

/-- The data-point component of the retry loop is never empty. -/
theorem retryLoop_snd_ne_nil (run : Nat → Except String (List ResearchDataPoint))
    (jitter : Nat → Rat) (q : String) (m : Nat) :
    ∀ k a, m - a ≤ k → (retryLoop run jitter q m a).2 ≠ [] := by
  intro k
  induction k with
  | zero =>
      intro a hk
      cases hrun : run a with
      | ok dps =>
          rw [retryLoop_run_ok run jitter q m a dps hrun]
          split
          · simp
          · simpa using (by assumption : ¬dps = [])
      | error e =>
          rw [retryLoop_run_error run jitter q m a e hrun]
          split
          · rw [if_neg (by omega)]
            simp
          · simp
  | succ k ih =>
      intro a hk
      cases hrun : run a with
      | ok dps =>
          rw [retryLoop_run_ok run jitter q m a dps hrun]
          split
          · simp
          · simpa using (by assumption : ¬dps = [])
      | error e =>
          rw [retryLoop_run_error run jitter q m a e hrun]
          split
          · split
            · simpa using ih (a + 1) (by omega)
            · simp
          · simp

/-- When attempts `a, a+1, ..., a+k-1` all raise throttling errors, the
retry loop performs `k` exponential-backoff sleeps and continues from
attempt `a+k`. -/
theorem retryLoop_429_backoffs (run : Nat → Except String (List ResearchDataPoint))
    (jitter : Nat → Rat) (q : String) (m : Nat) :
    ∀ k a, a + k ≤ m →
      (∀ i, a ≤ i → i < a + k →
        ∃ e, run i = Except.error e ∧ pyIn "429" e = true) →
      retryLoop run jitter q m a =
        (((List.range' a k).map (fun t => min 30 ((2 : Rat) ^ t + jitter t))) ++
            (retryLoop run jitter q m (a + k)).1,
          (retryLoop run jitter q m (a + k)).2) := by
  intro k
  induction k with
  | zero => intro a _ _; simp
  | succ k ih =>
      intro a ham hall
      obtain ⟨e, he, h429⟩ := hall a (le_refl a) (by omega)
      rw [retryLoop_run_error run jitter q m a e he, if_pos h429,
        if_pos (by omega : a < m)]
      rw [ih (a + 1) (by omega) (fun i h1 h2 => hall i (by omega) (by omega))]
      have hsum : a + 1 + k = a + (k + 1) := by omega
      rw [List.range'_succ, hsum]
      simp

/-- The retry loop returns the single error placeholder when the current
attempt raises a non-throttling error, or any error once `m ≤ a`. -/
theorem retryLoop_terminal_error (run : Nat → Except String (List ResearchDataPoint))
    (jitter : Nat → Rat) (q : String) (m a : Nat) (e : String)
    (he : run a = Except.error e) (h : pyIn "429" e = false ∨ m ≤ a) :
    retryLoop run jitter q m a = ([], [errorPlaceholder q]) := by
  rw [retryLoop_run_error run jitter q m a e he]
  rcases h with h | h
  · rw [if_neg (by simp [h])]
  · split
    · rw [if_neg (by omega)]
    · rfl

/-- Claim C1: `parallel_search` returns one result list per input term,
in the same order (the entry at index `i` is the retrieval outcome for
the term at index `i`), every entry non-empty; the embedding is a total
function, so no exception is raised for any term. -/
theorem parallel_search_shape
    (runs : String → Nat → Except String (List ResearchDataPoint))
    (jitter : String → Nat → Rat) (queries : List String) :
    (parallel_search runs jitter queries).length = queries.length ∧
    (∀ (i : Nat) (q0 : String), queries[i]? = some q0 →
      (parallel_search runs jitter queries)[i]? =
        some (process_query_with_retry (runs q0) (jitter q0) q0 5).2) ∧
    ∀ l ∈ parallel_search runs jitter queries, l ≠ [] := by
  refine ⟨by simp [parallel_search], ?_, ?_⟩
  · intro i q0 hq
    simp [parallel_search, hq]
  · intro l hl
    simp only [parallel_search, List.mem_map] at hl
    obtain ⟨q, _, rfl⟩ := hl
    exact retryLoop_snd_ne_nil (runs q) (jitter q) q 5 5 0 (by omega)

/-- Witness for C1 at a concrete query list and oracle. -/
theorem parallel_search_shape_witness :
    (parallel_search okRuns zeroJitter2 ["alpha"])[0]? =
      some (process_query_with_retry (okRuns "alpha") (zeroJitter2 "alpha")
        "alpha" 5).2 :=
  (parallel_search_shape okRuns zeroJitter2 ["alpha"]).2.1 0 "alpha" rfl

/-- Claim C4: if attempts `0..k-1` raise throttling (429) errors and
attempt `k` raises a non-429 error, or `k = 5` (retries exhausted), then
the per-term retrieval performs exactly the backoff sleeps
`min(30, 2 ** attempt + jitter)` for attempts `0..k-1` and returns
exactly one synthetic error placeholder with relevance score `0.1` and a
source tag distinct from the no-result placeholder; the loop is a total
function and its result slot is non-empty. -/
theorem process_query_with_retry_error_cases
    (run : Nat → Except String (List ResearchDataPoint)) (jitter : Nat → Rat)
    (q : String) (k : Nat) (hk : k ≤ 5)
    (h429 : ∀ i, i < k → ∃ e, run i = Except.error e ∧ pyIn "429" e = true)
    (hterm : ∃ e, run k = Except.error e ∧ (pyIn "429" e = false ∨ k = 5)) :
    process_query_with_retry run jitter q 5 =
      ((List.range k).map (fun t => min 30 ((2 : Rat) ^ t + jitter t)),
        [errorPlaceholder q]) ∧
    (errorPlaceholder q).relevance_score = 1/10 ∧
    (errorPlaceholder q).source = "https://example.com/error?q=" ++ q ∧
    errorPlaceholder q ≠ noResultPlaceholder q := by
  obtain ⟨e, he, hcase⟩ := hterm
  refine ⟨?_, rfl, rfl, ?_⟩
  · unfold process_query_with_retry
    rw [retryLoop_429_backoffs run jitter q 5 k 0 (by omega)
      (fun i h1 h2 => h429 i (by omega))]
    rw [retryLoop_terminal_error run jitter q 5 (0 + k) e (by simpa using he)
      (by rcases hcase with h | h
          · exact Or.inl h
          · exact Or.inr (by omega))]
    simp [List.range_eq_range']
  · intro hcontra
    have hsrc := congrArg ResearchDataPoint.source hcontra
    simp only [errorPlaceholder, noResultPlaceholder] at hsrc
    have hlen := congrArg String.length hsrc
    rw [String.length_append, String.length_append] at hlen
    have h1 : ("https://example.com/error?q=").length = 28 := by decide
    have h2 : ("https://example.com/search?q=").length = 29 := by decide
    omega

/-- Witness for C4: all six attempts raise a 429 error. -/
theorem process_query_with_retry_error_cases_witness :
    process_query_with_retry run429 zeroJitter "q" 5 =
      ((List.range 5).map (fun t => min 30 ((2 : Rat) ^ t + zeroJitter t)),
        [errorPlaceholder "q"]) ∧
    (errorPlaceholder "q").relevance_score = 1/10 ∧
    (errorPlaceholder "q").source = "https://example.com/error?q=" ++ "q" ∧
    errorPlaceholder "q" ≠ noResultPlaceholder "q" :=
  process_query_with_retry_error_cases run429 zeroJitter "q" 5 (le_refl 5)
    (fun i _ => ⟨"Error code: 429 - rate limit reached", rfl, by decide⟩)
    ⟨"Error code: 429 - rate limit reached", rfl, Or.inr rfl⟩

/-- The sources component of one `generate_report` loop iteration is the
source accumulation over the data points of that objective. -/
theorem generateReportStep_snd (summarize : String → String → Except String String)
    (acc : List (String × String) × List String)
    (entry : String × List ResearchDataPoint) :
    (generateReportStep summarize acc entry).2 =
      entry.2.foldl (fun s dp => addSource s dp.source) acc.2 := by
  rcases entry with ⟨obj, dps⟩
  by_cases h : dps = [] <;> simp [generateReportStep, h]

/-- The sources accumulated by the per-objective loop of `generate_report`
are the source accumulation over all data points, flattened in iteration
order. -/
theorem foldl_generateReportStep_sources
    (summarize : String → String → Except String String) :
    ∀ (rd : List (String × List ResearchDataPoint))
      (acc : List (String × String) × List String),
      (rd.foldl (generateReportStep summarize) acc).2 =
        (rd.map Prod.snd).flatten.foldl
          (fun s dp => addSource s dp.source) acc.2 := by
  intro rd
  induction rd with
  | nil => intro acc; rfl
  | cons hd tl ih =>
      intro acc
      rw [List.foldl_cons, ih, List.map_cons, List.flatten_cons,
        List.foldl_append, generateReportStep_snd]

/-- Folding `addSource` coincides with first-seen deduplication of the
sources that survive the truthiness and `@` filters. -/
theorem foldl_addSource_filter :
    ∀ (srcs : List String) (acc : List String),
      srcs.foldl addSource acc =
        (srcs.filter (fun s => s ≠ "" ∧ pyStartsWith s "@" = false)).foldl
          (fun a s => if s ∉ a then a ++ [s] else a) acc := by
  intro srcs
  induction srcs with
  | nil => intro acc; rfl
  | cons hd tl ih =>
      intro acc
      by_cases h : hd ≠ "" ∧ pyStartsWith hd "@" = false
      · rw [List.foldl_cons, List.filter_cons_of_pos (by simpa using h),
          List.foldl_cons, ih]
        congr 1
        by_cases hm : hd ∈ acc
        · rw [addSource, if_neg (by tauto), if_neg (by simpa using hm)]
        · rw [addSource, if_pos ⟨h.1, h.2, hm⟩, if_pos hm]
      · rw [List.foldl_cons, List.filter_cons_of_neg (by simpa using h), ih]
        congr 1
        rw [addSource, if_neg (by tauto)]

/-- Members of a first-seen deduplication fold come from the accumulator
or the list. -/
theorem mem_dedupFold (l : List String) :
    ∀ (acc : List String) (x : String),
      x ∈ l.foldl (fun a s => if s ∉ a then a ++ [s] else a) acc →
      x ∈ acc ∨ x ∈ l := by
  induction l with
  | nil => intro acc x hx; exact Or.inl hx
  | cons hd tl ih =>
      intro acc x hx
      rw [List.foldl_cons] at hx
      rcases ih _ x hx with hx2 | hx2
      · by_cases hm : hd ∈ acc
        · rw [if_neg (by simpa using hm)] at hx2
          exact Or.inl hx2
        · rw [if_pos hm] at hx2
          rcases List.mem_append.mp hx2 with h3 | h3
          · exact Or.inl h3
          · have hxhd : x = hd := by simpa using h3
            exact Or.inr (hxhd ▸ List.mem_cons_self hd tl)
      · exact Or.inr (List.mem_cons_of_mem hd hx2)

/-- A first-seen deduplication fold preserves `Nodup`. -/
theorem dedupFold_nodup (l : List String) :
    ∀ (acc : List String), acc.Nodup →
      (l.foldl (fun a s => if s ∉ a then a ++ [s] else a) acc).Nodup := by
  induction l with
  | nil => intro acc hacc; exact hacc
  | cons hd tl ih =>
      intro acc hacc
      rw [List.foldl_cons]
      by_cases hm : hd ∈ acc
      · rw [if_neg (by simpa using hm)]
        exact ih acc hacc
      · rw [if_pos hm]
        refine ih _ ?_
        simp [List.nodup_append, hacc, hm]

/-- `specValidSources` is duplicate-free. -/
theorem specValidSources_nodup (rd : List (String × List ResearchDataPoint)) :
    (specValidSources rd).Nodup :=
  dedupFold_nodup _ [] List.nodup_nil

/-- Every entry of `specValidSources` is non-empty and does not start
with `@`. -/
theorem specValidSources_all_valid (rd : List (String × List ResearchDataPoint)) :
    (specValidSources rd).all
      (fun s => decide (s ≠ "") && (pyStartsWith s "@" == false)) = true := by
  rw [List.all_eq_true]
  intro s hs
  rcases mem_dedupFold _ [] s hs with h | h
  · simp at h
  · have := List.of_mem_filter h
    simpa using this

/-- The source list computed inside `generate_report` is exactly
`specValidSources`. -/
theorem generate_report_sources_core
    (summarize : String → String → Except String String)
    (rd : List (String × List ResearchDataPoint)) :
    (rd.foldl (generateReportStep summarize)
        ([] , ([] : List String))).2 = specValidSources rd := by
  rw [foldl_generateReportStep_sources]
  show (rd.map Prod.snd).flatten.foldl (fun s dp => addSource s dp.source) [] =
    specValidSources rd
  rw [← List.foldl_map, foldl_addSource_filter]
  rfl

/-- Filtering `specValidSources` by the `@` predicate is the identity. -/
theorem specValidSources_filter_at (rd : List (String × List ResearchDataPoint)) :
    (specValidSources rd).filter (fun src => pyStartsWith src "@" = false) =
      specValidSources rd := by
  rw [List.filter_eq_self]
  intro s hs
  rcases mem_dedupFold _ [] s hs with h | h
  · simp at h
  · have := List.of_mem_filter h
    simpa using (by simpa using this : s ≠ "" ∧ pyStartsWith s "@" = false).2

/-- Substring containment is preserved by appending on the left. -/
theorem pyIn_append_right (p a b : String) (h : pyIn p b = true) :
    pyIn p (a ++ b) = true := by
  rw [pyIn, decide_eq_true_eq] at h ⊢
  rw [String.data_append]
  obtain ⟨s, t, heq⟩ := h
  exact ⟨a.data ++ s, t, by rw [← heq]; simp⟩

/-- Substring containment is preserved by appending on the right. -/
theorem pyIn_append_left (p a b : String) (h : pyIn p a = true) :
    pyIn p (a ++ b) = true := by
  rw [pyIn, decide_eq_true_eq] at h ⊢
  rw [String.data_append]
  obtain ⟨s, t, heq⟩ := h
  exact ⟨s, t ++ b.data, by rw [← heq]; simp⟩

/-- A successful `ResearchReport` construction returns exactly the
record it was given. -/
theorem reportConstruction_some (topic : String)
    (findings : List (String × List ResearchDataPoint))
    (synthesis : String) (sources : List String) (r : ResearchReport)
    (h : reportConstruction topic findings synthesis sources = some r) :
    r = { topic := topic, findings := findings,
          synthesis := synthesis, sources := sources } := by
  rw [reportConstruction] at h
  split at h
  · exact absurd h (by simp)
  · exact (Option.some.inj h).symm

/-- A `ResearchReport` construction succeeds when the synthesis meets
the 100-character minimum and the sources list is non-empty. -/
theorem reportConstruction_eq_some (topic : String)
    (findings : List (String × List ResearchDataPoint))
    (synthesis : String) (sources : List String)
    (h1 : 100 ≤ synthesis.length) (h2 : sources ≠ []) :
    reportConstruction topic findings synthesis sources =
      some { topic := topic, findings := findings,
             synthesis := synthesis, sources := sources } := by
  rw [reportConstruction, if_neg]
  intro hcontra
  rcases hcontra with hc | hc
  · omega
  · exact h2 (List.length_eq_zero.mp (by omega))

set_option maxRecDepth 65536 in
/-- Claim C2 counterexample: on a findings map whose only data point has
the empty string as source, the claimed source list (dedup, first-seen,
excluding only sources starting with `@`) is `[""]`, but the program
drops falsy (empty) sources too.  With no valid sources, a short composed
text fails the schema's 100-character validation, so the program lands in
the `except` branch and emits the `["Error collecting sources"]`
sentinel — not the claimed `[""]`; and when the caught exception text is
itself short, the fallback construction fails validation as well and
`generate_report` raises (`none`), refuting "never raises". -/
theorem generate_report_sources_claim_counterexample :
    claimedSourcesC2 cexFindingsC2 = [""] ∧
    generate_report okSummarize (Except.ok "Body with References")
        pydanticMsgFixture cexFindingsC2 "topic" =
      some { topic := "topic"
             findings := cexFindingsC2
             synthesis := "Error generating report: " ++ pydanticMsgFixture ++
               "\n\n## References\n\n" ++ numberedSources []
             sources := ["Error collecting sources"] } ∧
    generate_report okSummarize (Except.error "api error")
        pydanticMsgFixture cexFindingsC2 "topic" = none := by
  refine ⟨rfl, by decide, by decide⟩

/-- Claim C2 (amended): `generate_report` builds the sources list by
collecting data point source values in first-seen order, deduplicated,
excluding every source that is empty or starts with `@`.  It does not
always return a Report: the composed (or fallback error) synthesis must
pass the schema's 100-character validation, and when both constructions
fail, the `ValidationError` propagates (`none`).  Whenever a Report is
returned, its sources list is the filtered deduplicated list, or a
single sentinel when that list is empty ("No valid sources found" on the
normal path, "Error collecting sources" on the exception path), and is
never empty. -/
theorem generate_report_sources_amended
    (summarize : String → String → Except String String)
    (compose : Except String String) (vmsg : String)
    (rd : List (String × List ResearchDataPoint)) (q : String) :
    (∀ e, compose = Except.error e →
      generate_report summarize compose vmsg rd q =
        generateReportExceptPath rd q (specValidSources rd) e) ∧
    (∀ t, compose = Except.ok t →
      generate_report summarize compose vmsg rd q =
        (match reportConstruction q rd
            (composedWithReferences t (specValidSources rd))
            (if specValidSources rd = [] then ["No valid sources found"]
             else specValidSources rd) with
         | some r => some r
         | none => generateReportExceptPath rd q (specValidSources rd) vmsg)) ∧
    (∀ r, generate_report summarize compose vmsg rd q = some r →
      (r.sources =
          (if specValidSources rd = [] then ["No valid sources found"]
           else specValidSources rd) ∨
        r.sources =
          (if specValidSources rd = [] then ["Error collecting sources"]
           else specValidSources rd)) ∧
      r.sources ≠ []) ∧
    (specValidSources rd).Nodup ∧
    (specValidSources rd).all
      (fun s => decide (s ≠ "") && (pyStartsWith s "@" == false)) = true := by
  have hcore : (rd.foldl (generateReportStep summarize)
      ([], ([] : List String))).2 = specValidSources rd :=
    generate_report_sources_core summarize rd
  have herr : ∀ e, compose = Except.error e →
      generate_report summarize compose vmsg rd q =
        generateReportExceptPath rd q (specValidSources rd) e := by
    intro e he
    subst he
    simp only [generate_report, hcore, specValidSources_filter_at]
  have hok : ∀ t, compose = Except.ok t →
      generate_report summarize compose vmsg rd q =
        (match reportConstruction q rd
            (composedWithReferences t (specValidSources rd))
            (if specValidSources rd = [] then ["No valid sources found"]
             else specValidSources rd) with
         | some r => some r
         | none => generateReportExceptPath rd q (specValidSources rd) vmsg) := by
    intro t ht
    subst ht
    simp only [generate_report, hcore, specValidSources_filter_at]
  refine ⟨herr, hok, ?_, specValidSources_nodup rd, specValidSources_all_valid rd⟩
  intro r hr
  have hsrc : r.sources =
      (if specValidSources rd = [] then ["No valid sources found"]
       else specValidSources rd) ∨
    r.sources =
      (if specValidSources rd = [] then ["Error collecting sources"]
       else specValidSources rd) := by
    rcases compose with e | t
    · rw [herr e rfl] at hr
      rw [reportConstruction_some _ _ _ _ _ hr]
      exact Or.inr rfl
    · rw [hok t rfl] at hr
      cases hcon : reportConstruction q rd
          (composedWithReferences t (specValidSources rd))
          (if specValidSources rd = [] then ["No valid sources found"]
           else specValidSources rd) with
      | none =>
          rw [hcon] at hr
          simp only [] at hr
          rw [reportConstruction_some _ _ _ _ _ hr]
          exact Or.inr rfl
      | some r0 =>
          rw [hcon] at hr
          simp only [Option.some.injEq] at hr
          rw [← hr, reportConstruction_some _ _ _ _ _ hcon]
          exact Or.inl rfl
  refine ⟨hsrc, ?_⟩
  have hne : ∀ x : String,
      (if specValidSources rd = [] then [x] else specValidSources rd) ≠ [] := by
    intro x
    by_cases hsv : specValidSources rd = []
    · simp [hsv]
    · simp [hsv]
  rcases hsrc with h | h <;> rw [h] <;> exact hne _

/-- Witness for C2 at a raising composition call. -/
theorem generate_report_sources_amended_witness :
    generate_report okSummarize (Except.error "boom") pydanticMsgFixture
        findingsFixture "topic" =
      generateReportExceptPath findingsFixture "topic"
        (specValidSources findingsFixture) "boom" :=
  (generate_report_sources_amended okSummarize (Except.error "boom")
    pydanticMsgFixture findingsFixture "topic").1 "boom" rfl

set_option maxRecDepth 65536 in
/-- Claim C3 counterexample: a composed text over 100 characters long
containing "references" only in lower case passes the claimed
case-insensitive check, yet the program (which looks for the exact
substrings "References" and "REFERENCES") still appends a references
section; the appended text passes the schema validation, so the emitted
synthesis is the composed text plus a section rather than the composed
text — refuting the claimed "if and only if" at this input. -/
theorem generate_report_references_claim_counterexample :
    claimedHasReferencesC3 cexComposedC3 = true ∧
    Option.map ResearchReport.synthesis
        (generate_report okSummarize (Except.ok cexComposedC3)
          pydanticMsgFixture findingsFixture "topic") =
      some (cexComposedC3 ++ "\n\n## References\n\n" ++
        numberedSources (specValidSources findingsFixture)) ∧
    cexComposedC3 ++ "\n\n## References\n\n" ++
        numberedSources (specValidSources findingsFixture) ≠ cexComposedC3 := by
  refine ⟨by decide, by decide, by decide⟩

/-- Claim C3 (amended): after whole-report composition the code checks
for the exact substrings "References" and "REFERENCES" (a case-sensitive
check, not a case-insensitive one); exactly when both are absent it
appends a "## References" section enumerating the valid (non-empty,
non-`@`, first-seen deduplicated) sources once each.  When the repaired
text passes the schema's 100-character validation the emitted Report
carries it as synthesis, and every Report that `generate_report` emits —
on any path — contains "References" or "REFERENCES". -/
theorem generate_report_references_amended
    (summarize : String → String → Except String String)
    (compose : Except String String) (vmsg : String)
    (rd : List (String × List ResearchDataPoint)) (q t : String) :
    (pyIn "References" t = false ∧ pyIn "REFERENCES" t = false →
      composedWithReferences t (specValidSources rd) =
        t ++ "\n\n## References\n\n" ++
          numberedSources (specValidSources rd)) ∧
    (pyIn "References" t = true ∨ pyIn "REFERENCES" t = true →
      composedWithReferences t (specValidSources rd) = t) ∧
    (compose = Except.ok t →
      100 ≤ (composedWithReferences t (specValidSources rd)).length →
      generate_report summarize compose vmsg rd q = some
        { topic := q
          findings := rd
          synthesis := composedWithReferences t (specValidSources rd)
          sources := if specValidSources rd = [] then ["No valid sources found"]
                     else specValidSources rd }) ∧
    (specValidSources rd).Nodup ∧
    (∀ r, generate_report summarize compose vmsg rd q = some r →
      pyIn "References" r.synthesis = true ∨
        pyIn "REFERENCES" r.synthesis = true) := by
  have hcore : (rd.foldl (generateReportStep summarize)
      ([], ([] : List String))).2 = specValidSources rd :=
    generate_report_sources_core summarize rd
  have hlit : pyIn "References" "\n\n## References\n\n" = true := by decide
  refine ⟨?_, ?_, ?_, specValidSources_nodup rd, ?_⟩
  · intro hc
    rw [composedWithReferences, if_pos hc]
  · intro hc
    rw [composedWithReferences,
      if_neg (by rcases hc with hc | hc <;> simp [hc])]
  · intro hcomp hlen
    subst hcomp
    simp only [generate_report, hcore, specValidSources_filter_at]
    have hne : (if specValidSources rd = [] then ["No valid sources found"]
        else specValidSources rd) ≠ [] := by
      by_cases hsv : specValidSources rd = []
      · simp [hsv]
      · simp [hsv]
    rw [reportConstruction_eq_some q rd _ _ hlen hne]
  · intro r hr
    rcases compose with e | t0
    · simp only [generate_report, hcore, specValidSources_filter_at] at hr
      left
      rw [reportConstruction_some _ _ _ _ _ hr]
      exact pyIn_append_left _ _ _ (pyIn_append_right _ _ _ hlit)
    · simp only [generate_report, hcore, specValidSources_filter_at] at hr
      cases hcon : reportConstruction q rd
          (composedWithReferences t0 (specValidSources rd))
          (if specValidSources rd = [] then ["No valid sources found"]
           else specValidSources rd) with
      | none =>
          rw [hcon] at hr
          simp only [] at hr
          left
          rw [reportConstruction_some _ _ _ _ _ hr]
          exact pyIn_append_left _ _ _ (pyIn_append_right _ _ _ hlit)
      | some r0 =>
          rw [hcon] at hr
          simp only [Option.some.injEq] at hr
          rw [← hr, reportConstruction_some _ _ _ _ _ hcon]
          show pyIn "References"
              (composedWithReferences t0 (specValidSources rd)) = true ∨
            pyIn "REFERENCES"
              (composedWithReferences t0 (specValidSources rd)) = true
          by_cases hc : pyIn "References" t0 = false ∧
              pyIn "REFERENCES" t0 = false
          · left
            rw [composedWithReferences, if_pos hc]
            exact pyIn_append_left _ _ _ (pyIn_append_right _ _ _ hlit)
          · have hor : pyIn "References" t0 = true ∨
                pyIn "REFERENCES" t0 = true := by
              rcases Bool.eq_false_or_eq_true (pyIn "References" t0) with h1 | h1
              · exact Or.inl h1
              · rcases Bool.eq_false_or_eq_true (pyIn "REFERENCES" t0) with h2 | h2
                · exact Or.inr h2
                · exact absurd ⟨h1, h2⟩ hc
            rw [composedWithReferences,
              if_neg (by rcases hor with hc2 | hc2 <;> simp [hc2])]
            exact hor

set_option maxRecDepth 65536 in
/-- Witness for C3 at a long composed text lacking any references
marker. -/
theorem generate_report_references_amended_witness :
    generate_report okSummarize (Except.ok cexPlainC3) pydanticMsgFixture
        findingsFixture "topic" = some
      { topic := "topic"
        findings := findingsFixture
        synthesis := composedWithReferences cexPlainC3
          (specValidSources findingsFixture)
        sources := if specValidSources findingsFixture = []
                   then ["No valid sources found"]
                   else specValidSources findingsFixture } :=
  (generate_report_references_amended okSummarize (Except.ok cexPlainC3)
    pydanticMsgFixture findingsFixture "topic" cexPlainC3).2.2.1 rfl
    (by decide)

/-- A pattern is a substring of itself. -/
theorem pyIn_self (p : String) : pyIn p p = true :=
  decide_eq_true (List.infix_refl p.data)

/-- Reference-line folds preserve substring containment of the
accumulator. -/
theorem pyIn_foldl_refline_acc (l : List ResearchDataPoint) :
    ∀ (acc p : String), pyIn p acc = true →
      pyIn p (l.foldl (fun a dp => a ++ "- " ++ dp.source ++ "\n") acc) =
        true := by
  induction l with
  | nil => intro acc p h; exact h
  | cons hd tl ih =>
      intro acc p h
      rw [List.foldl_cons]
      exact ih _ p
        (pyIn_append_left _ _ _ (pyIn_append_left _ _ _
          (pyIn_append_left _ _ _ h)))

/-- The reference-line fold contains the line of every listed data
point. -/
theorem pyIn_foldl_refline_mem (l : List ResearchDataPoint) :
    ∀ (acc : String) (dp : ResearchDataPoint), dp ∈ l →
      pyIn ("- " ++ dp.source ++ "\n")
        (l.foldl (fun a d => a ++ "- " ++ d.source ++ "\n") acc) = true := by
  induction l with
  | nil => intro acc dp h; simp at h
  | cons hd tl ih =>
      intro acc dp h
      rw [List.foldl_cons]
      rcases List.mem_cons.mp h with h | h
      · subst h
        apply pyIn_foldl_refline_acc
        have : acc ++ "- " ++ dp.source ++ "\n" =
            acc ++ ("- " ++ dp.source ++ "\n") := by
          simp [String.append_assoc]
        rw [this]
        exact pyIn_append_right _ _ _ (pyIn_self _)
      · exact ih _ dp h

/-- The nested references fold over a findings map preserves substring
containment of the accumulator. -/
theorem pyIn_skeletonFold_acc (findings : List (String × List ResearchDataPoint)) :
    ∀ (acc p : String), pyIn p acc = true →
      pyIn p (findings.foldl
        (fun a q => q.2.foldl (fun b dp => b ++ "- " ++ dp.source ++ "\n") a)
        acc) = true := by
  induction findings with
  | nil => intro acc p h; exact h
  | cons hd tl ih =>
      intro acc p h
      rw [List.foldl_cons]
      exact ih _ p (pyIn_foldl_refline_acc _ _ _ h)

/-- The nested references fold contains the line of every data point of
every listed objective. -/
theorem pyIn_skeletonFold_mem (dp : ResearchDataPoint)
    (findings : List (String × List ResearchDataPoint)) :
    ∀ (acc : String) (q : String × List ResearchDataPoint),
      q ∈ findings → dp ∈ q.2 →
      pyIn ("- " ++ dp.source ++ "\n")
        (findings.foldl
          (fun a r => r.2.foldl (fun b d => b ++ "- " ++ d.source ++ "\n") a)
          acc) = true := by
  induction findings with
  | nil => intro acc q hq _; simp at hq
  | cons hd tl ih =>
      intro acc q hq hmem
      rw [List.foldl_cons]
      rcases List.mem_cons.mp hq with h | h
      · subst h
        exact pyIn_skeletonFold_acc tl _ _
          (pyIn_foldl_refline_mem _ _ dp hmem)
      · exact ih _ q h hmem

/-- The references section of the minimal skeleton contains a reference
line for every data point of every objective. -/
theorem pyIn_skeletonReferences
    (findings : List (String × List ResearchDataPoint))
    (dp : ResearchDataPoint) (hdp : ∃ q ∈ findings, dp ∈ q.2) :
    pyIn ("- " ++ dp.source ++ "\n") (skeletonReferences findings) = true := by
  obtain ⟨q, hq, hmem⟩ := hdp
  rw [skeletonReferences]
  exact pyIn_append_right _ _ _ (pyIn_skeletonFold_mem dp findings "" q hq hmem)

/-- Claim C6: when the synthesis is empty or shorter than
`2 * MIN_REPORT_WORDS` characters and the findings contain at least one
data point, `validate_report` replaces the synthesis — with no oracle
call, the regeneration is pure — by the deterministic skeleton
`minimalSynthesis` (topic header, per-objective sections with
300-character previews, references section), whose references section
lists every data point source unfiltered; otherwise the report passes
through unchanged. -/
theorem validate_report_regeneration (r : ResearchReport) :
    ((r.synthesis = "" ∨ r.synthesis.length < MIN_REPORT_WORDS * 2) →
      totalDataPoints r.findings > 0 →
      validate_report r = { r with synthesis := minimalSynthesis r } ∧
      ∀ dp : ResearchDataPoint, (∃ q ∈ r.findings, dp ∈ q.2) →
        pyIn ("- " ++ dp.source ++ "\n")
          (validate_report r).synthesis = true) ∧
    (¬(r.synthesis = "" ∨ r.synthesis.length < MIN_REPORT_WORDS * 2) ∨
      totalDataPoints r.findings = 0 →
      validate_report r = r) := by
  constructor
  · intro hc htot
    have hne : r.findings ≠ [] := by
      intro h0
      rw [totalDataPoints, h0] at htot
      simp at htot
    have heq : validate_report r = { r with synthesis := minimalSynthesis r } := by
      rw [validate_report, if_pos hc, if_pos ⟨hne, htot⟩]
    refine ⟨heq, ?_⟩
    intro dp hdp
    rw [heq]
    show pyIn ("- " ++ dp.source ++ "\n") (minimalSynthesis r) = true
    rw [minimalSynthesis]
    exact pyIn_append_right _ _ _ (pyIn_skeletonReferences r.findings dp hdp)
  · intro hc
    rcases hc with hc | hc
    · rw [validate_report, if_neg hc]
    · rw [validate_report]
      split
      · rw [if_neg (by intro hcontra; omega)]
      · rfl

/-- Witness for C6 at a report with a 9-character synthesis and one data
point. -/
theorem validate_report_regeneration_witness :
    validate_report shortReportFixture =
      { shortReportFixture with
        synthesis := minimalSynthesis shortReportFixture } ∧
    pyIn ("- " ++ sampleDataPoint.source ++ "\n")
      (validate_report shortReportFixture).synthesis = true :=
  ⟨((validate_report_regeneration shortReportFixture).1
      (Or.inr (by decide)) (by decide)).1,
    ((validate_report_regeneration shortReportFixture).1
      (Or.inr (by decide)) (by decide)).2 sampleDataPoint
      ⟨("objective one", [sampleDataPoint]), by decide, by decide⟩⟩

/-- Claim C7: `validate_report` is a total function (never raises in the
embedding) and is idempotent on already-valid reports: when the synthesis
is at least `2 * MIN_REPORT_WORDS` characters, one and two applications
both return the input unchanged. -/
theorem validate_report_idempotent_on_valid (r : ResearchReport)
    (h : MIN_REPORT_WORDS * 2 ≤ r.synthesis.length) :
    validate_report r = r ∧
    validate_report (validate_report r) = r := by
  have hcond : ¬(r.synthesis = "" ∨
      r.synthesis.length < MIN_REPORT_WORDS * 2) := by
    push_neg
    refine ⟨?_, by omega⟩
    intro h0
    rw [h0] at h
    revert h
    decide
  have h1 : validate_report r = r := by
    rw [validate_report, if_neg hcond]
  exact ⟨h1, by rw [h1, h1]⟩

/-- Witness for C7 at a report whose synthesis has 2000 characters. -/
theorem validate_report_idempotent_on_valid_witness :
    validate_report validReportFixture = validReportFixture ∧
    validate_report (validate_report validReportFixture) =
      validReportFixture :=
  validate_report_idempotent_on_valid validReportFixture
    (by rw [show validReportFixture.synthesis =
          String.mk (List.replicate 2000 'a') from rfl, String.length_mk,
        List.length_replicate]
        decide)

/-- Claim C10: on every execution path `validate_report` leaves the
topic, findings and sources fields unchanged; the returned report is the
input report with at most the synthesis field replaced. -/
theorem validate_report_frame (r : ResearchReport) :
    (validate_report r).topic = r.topic ∧
    (validate_report r).findings = r.findings ∧
    (validate_report r).sources = r.sources ∧
    validate_report r = { r with synthesis := (validate_report r).synthesis } := by
  rw [validate_report]
  split
  · split
    · exact ⟨rfl, rfl, rfl, rfl⟩
    · exact ⟨rfl, rfl, rfl, rfl⟩
  · exact ⟨rfl, rfl, rfl, rfl⟩

/-- A guarded accumulate-append fold is the accumulator followed by the
flattening of the selected entries, in list order. -/
theorem foldl_if_append_eq_flatten
    (lists : List (List ResearchDataPoint)) (obj : String) :
    ∀ (l : List (Nat × String)) (acc : List ResearchDataPoint),
      l.foldl (fun a q =>
          if q.1 < lists.length ∧ pyIn obj q.2 then a ++ lists.getD q.1 []
          else a) acc =
        acc ++ ((l.filter (fun q => q.1 < lists.length ∧ pyIn obj q.2)).map
          (fun q => lists.getD q.1 [])).flatten := by
  intro l
  induction l with
  | nil => intro acc; simp
  | cons hd tl ih =>
      intro acc
      rw [List.foldl_cons]
      by_cases h : hd.1 < lists.length ∧ pyIn obj hd.2 = true
      · rw [if_pos h, List.filter_cons_of_pos (by simpa using h), ih,
          List.map_cons, List.flatten_cons, List.append_assoc]
      · rw [if_neg h, List.filter_cons_of_neg (by simpa using h), ih]

/-- Claim C5 counterexample: a subtask whose objective is contained in a
term whose retrieval returned nothing. The claim (fallback only when no
term matches) yields an empty entry, but the code falls back positionally
because the concatenation — not the match set — is empty. -/
theorem aggregateFindings_claim_counterexample :
    aggregateFindings cexSubtasksC5 cexTermsC5 cexListsC5 =
      [("foo", [sampleDataPoint])] ∧
    claimedAggregateC5 cexSubtasksC5 cexTermsC5 cexListsC5 =
      [("foo", [])] := by
  constructor <;> decide

/-- Claim C5 (amended): each subtask maps to the concatenation, in term
order preserving per-term internal order, of the per-term lists whose
term contains the objective as a case-sensitive substring; the positional
fallback applies whenever that concatenation is empty — both when no
term matches and when every matching term returned an empty list — and
the objective maps to the empty list only when the fallback index is
also out of range. -/
theorem aggregateFindings_amended (subtasks : List ResearchSubtask)
    (search_terms : List String)
    (all_findings_lists : List (List ResearchDataPoint)) :
    aggregateFindings subtasks search_terms all_findings_lists =
      amendedAggregateC5 subtasks search_terms all_findings_lists := by
  rw [aggregateFindings, amendedAggregateC5]
  apply List.map_congr_left
  intro p _
  simp only [matchedJoin,
    foldl_if_append_eq_flatten all_findings_lists p.2.objective,
    List.nil_append]
  split
  · rfl
  · rfl

/-- The planner post-validation step, written as a single map: the
renumbered priorities are already sorted, so the final stable sort is the
identity. -/
theorem validate_subtasks_eq_map (subtasks : List ResearchSubtask) :
    validate_subtasks subtasks =
      subtasks.enum.map (fun p =>
        { p.2 with
          search_terms :=
            if p.2.search_terms = [] then [p.2.objective]
            else p.2.search_terms
          priority := (p.1 : Int) + 1 }) := by
  rw [validate_subtasks]
  apply List.mergeSort_of_sorted
  rw [List.pairwise_map, List.pairwise_iff_getElem]
  intro i j hi hj hij
  rw [List.enum_length] at hi hj
  simp only [List.getElem_enum, decide_eq_true_eq]
  omega

/-- Claim C8 counterexample: the post-validation step does not constrain
the subtask count to `[MIN_SUBTASKS, MAX_SUBTASKS]` — a single-subtask
input passes through with one subtask, below the claimed minimum. -/
theorem validate_subtasks_count_counterexample :
    (validate_subtasks cexSubtasksC8).length = 1 ∧
    ¬(MIN_SUBTASKS ≤ (validate_subtasks cexSubtasksC8).length ∧
      (validate_subtasks cexSubtasksC8).length ≤ MAX_SUBTASKS) := by
  rw [validate_subtasks_eq_map]
  constructor <;> decide

/-- Claim C8 (amended): the post-validation step substitutes the
objective as sole search term for every subtask with an empty search-term
list, renumbers priorities to exactly `1..N` in list order (strictly
increasing, regardless of input priorities), and preserves the subtask
count — it does not enforce the configured range
`[MIN_SUBTASKS, MAX_SUBTASKS]`. -/
theorem validate_subtasks_amended (subtasks : List ResearchSubtask) :
    (validate_subtasks subtasks).length = subtasks.length ∧
    ∀ (i : Nat) (st : ResearchSubtask), subtasks[i]? = some st →
      (validate_subtasks subtasks)[i]? = some
        { objective := st.objective
          search_terms :=
            if st.search_terms = [] then [st.objective] else st.search_terms
          priority := (i : Int) + 1 } := by
  rw [validate_subtasks_eq_map]
  constructor
  · simp
  · intro i st hst
    have henum : subtasks.enum[i]? = some (i, st) := by
      rw [List.getElem?_enum, hst]
      rfl
    rw [List.getElem?_map, henum]
    rfl

/-- Witness for C8 at a single-subtask input with an empty search-term
list and an out-of-order priority. -/
theorem validate_subtasks_amended_witness :
    (validate_subtasks cexSubtasksC5)[0]? = some
      { objective := "foo", search_terms := ["foo"], priority := 1 } :=
  (validate_subtasks_amended cexSubtasksC5).2 0
    { objective := "foo", search_terms := [], priority := 1 } rfl

/-- Claim C9: inside `web_search`, a successfully fetched page text
strictly longer than the search snippet replaces the snippet as the
result content; a shorter or equal fetched text and a fetch failure are
non-fatal and leave the snippet in place. -/
theorem fetchAndUpdateContent_behaviour (snippet : String) :
    (∀ t : String, snippet.length < t.length →
      fetchAndUpdateContent snippet (Except.ok t) = t) ∧
    (∀ t : String, t.length ≤ snippet.length →
      fetchAndUpdateContent snippet (Except.ok t) = snippet) ∧
    (∀ e : String, fetchAndUpdateContent snippet (Except.error e) = snippet) := by
  refine ⟨?_, ?_, fun e => rfl⟩
  · intro t ht
    have hne : t ≠ "" := by
      intro h0
      rw [h0, String.length_empty] at ht
      omega
    rw [fetchAndUpdateContent, if_pos ⟨hne, ht⟩]
  · intro t ht
    rw [fetchAndUpdateContent,
      if_neg (fun hcontra => absurd hcontra.2 (by omega))]

/-- Witness for C9 at a two-character snippet. -/
theorem fetchAndUpdateContent_behaviour_witness :
    fetchAndUpdateContent "ab" (Except.ok "abcd") = "abcd" ∧
    fetchAndUpdateContent "ab" (Except.error "boom") = "ab" :=
  ⟨(fetchAndUpdateContent_behaviour "ab").1 "abcd" (by decide),
    (fetchAndUpdateContent_behaviour "ab").2.2 "boom"⟩
